import Mathlib

/-!
# Stitchfolio backend — inventory stock-movement subsystem

Shallow embedding of the inventory core of the `stitchfolio-backend` Go
repository, and proofs about its stock-movement logic.

The embedding mirrors, definition by definition:
* `internal/entities/inventory.go` (`Inventory`),
* `internal/entities/inventory_log.go` (`InventoryLog`, the change-type
  string constants, `CalculateNetChange`),
* `internal/model/request` (`StockMovementRequest`, `Inventory` request),
* `internal/model/response` (`StockMovementResponse`),
* the repository layer (`GetByProductId`, `UpdateQuantity`,
  `UpdateThreshold`, `Create` on logs) acting on an explicit store state,
* `internal/service/inventory_service.go`
  (`inventoryService.RecordStockMovement`,
  `inventoryService.UpdateThreshold`),
* the HTTP handler's request binding for stock movements.

Go `int` fields become `Int`; Go `uint` identifiers become `Nat`;
timestamps become an abstract `Nat` tick passed in by the caller (the Go
code calls `util.GetLocalTime()` / `time.Now()`).  Storage failures of the
two write calls are injected through a `StorageOracle`.
-/

namespace Stitchfolio

/-- Entity `Inventory` (the stock snapshot, `internal/entities/inventory.go`):
one row per product with the current quantity and the low-stock threshold.
`id` is the primary key, `isActive` the soft-delete flag, `channelId` the
tenant reference, `updatedAt` the last-updated timestamp. -/
structure Inventory where
  id : Nat
  productId : Nat
  quantity : Int
  lowStockThreshold : Int
  isActive : Bool
  channelId : Nat
  updatedAt : Nat
deriving Repr, DecidableEq

/-- Entity `InventoryLog` (the stock ledger entry,
`internal/entities/inventory_log.go`).  `changeType` is a dynamic string in
the Go source (`InventoryLogChangeType string`), so it is kept as `String`
here.  `quantity` is the caller-submitted magnitude. -/
structure InventoryLog where
  productId : Nat
  changeType : String
  quantity : Int
  reason : String
  notes : String
  loggedAt : Nat
  isActive : Bool
deriving Repr, DecidableEq

/-- Constant `InventoryLogChangeTypeIN` of `inventory_log.go`. -/
def InventoryLogChangeTypeIN : String := "IN"

/-- Constant `InventoryLogChangeTypeOUT` of `inventory_log.go`. -/
def InventoryLogChangeTypeOUT : String := "OUT"

/-- Constant `InventoryLogChangeTypeADJUST` of `inventory_log.go`. -/
def InventoryLogChangeTypeADJUST : String := "ADJUST"

/-- `InventoryLog.CalculateNetChange` (`inventory_log.go`): the signed net
change of a ledger entry — `+quantity` for IN, `-quantity` for OUT,
`quantity` for ADJUST, and `0` in the (unreachable) default case of the Go
switch. -/
def CalculateNetChange (il : InventoryLog) : Int :=
  if il.changeType = InventoryLogChangeTypeIN then il.quantity
  else if il.changeType = InventoryLogChangeTypeOUT then -il.quantity
  else if il.changeType = InventoryLogChangeTypeADJUST then il.quantity
  else 0

/-- Error codes of the `errs.XError` values constructed by the inventory
core (`errs` package of the `pixie` library).  `NOT_FOUND` is included so
that statements about that code can be expressed; the inventory service
itself only constructs `INVALID_REQUEST` and `DATABASE` errors. -/
inductive ErrCode where
  | INVALID_REQUEST
  | NOT_FOUND
  | DATABASE
  | MAPPING_ERROR
deriving Repr, DecidableEq

/-- `errs.XError`: an error code together with the human-readable message
passed to `errs.NewXError`. -/
structure XError where
  code : ErrCode
  message : String
deriving Repr, DecidableEq

/-- The persistent store visible to the inventory core: the
`Inventories` table and the append-only `InventoryLogs` table. -/
structure StoreState where
  inventories : List Inventory
  logs : List InventoryLog
deriving Repr, DecidableEq

/-- `inventoryRepository.GetByProductId` (`inventory_repository.go`):
`First` over rows with `product_id = ?` — the first matching row, or
nothing (gorm's `First` errors on an empty result, which the service turns
into its own error). -/
def getByProductId (st : StoreState) (productId : Nat) : Option Inventory :=
  st.inventories.find? (fun i => i.productId = productId)

/-- `inventoryRepository.UpdateQuantity` (`inventory_repository.go`):
`Updates` with only the `quantity` and `updated_at` columns on rows with
`product_id = ?`; every other column is untouched. -/
def UpdateQuantity (st : StoreState) (productId : Nat) (newQuantity : Int)
    (now : Nat) : StoreState :=
  ⟨st.inventories.map (fun i =>
      if i.productId = productId then
        { i with quantity := newQuantity, updatedAt := now }
      else i),
   st.logs⟩

/-- `inventoryRepository.UpdateThreshold` (`inventory_repository.go`):
`Update` of the single `low_stock_threshold` column on rows with
`product_id = ?`.  Because `entities.Model` carries an `UpdatedAt` field,
gorm's `Update` also auto-sets the `updated_at` column on the touched
rows (the `now` tick here); the quantity and every other column are
untouched. -/
def UpdateThreshold (st : StoreState) (productId : Nat) (threshold : Int)
    (now : Nat) : StoreState :=
  ⟨st.inventories.map (fun i =>
      if i.productId = productId then
        { i with lowStockThreshold := threshold, updatedAt := now }
      else i),
   st.logs⟩

/-- `requestModel.StockMovementRequest` (`model/request/inventory_log.go`).
All fields carry a gin `binding:"required"` tag except `notes` and
`adminOverride`. -/
structure StockMovementRequest where
  productId : Nat
  changeType : String
  quantity : Int
  reason : String
  notes : String
  adminOverride : Bool
deriving Repr, DecidableEq

/-- `responseModel.StockMovementResponse`
(`model/response/inventory_log.go`). -/
structure StockMovementResponse where
  success : Bool
  message : String
  productId : Nat
  previousStock : Int
  newStock : Int
  changeAmount : Int
deriving Repr, DecidableEq

/-- Failure injection for the two storage writes performed by
`RecordStockMovement`: the ledger insert (`inventoryLogRepo.Create`) and
the snapshot update (`inventoryRepo.UpdateQuantity`). -/
structure StorageOracle where
  logCreateFails : Bool
  updateQuantityFails : Bool
deriving Repr, DecidableEq

/-- The oracle of a healthy storage layer: neither write fails. -/
def honestOracle : StorageOracle := ⟨false, false⟩

/-- The change-type validation of `RecordStockMovement`
(`inventory_service.go`): the submitted string must be one of the three
`InventoryLogChangeType` constants. -/
def validChangeType (changeType : String) : Prop :=
  changeType = InventoryLogChangeTypeIN ∨
  changeType = InventoryLogChangeTypeOUT ∨
  changeType = InventoryLogChangeTypeADJUST

instance (changeType : String) : Decidable (validChangeType changeType) := by
  unfold validChangeType
  infer_instance

/-- The `netChange` computed by the `switch changeType` block of
`RecordStockMovement` (`inventory_service.go` lines 168–195): `+quantity`
for IN, `-quantity` for OUT, and for ADJUST `quantity` when positive else
`-quantity` (the Go comment says "Make it negative for removal", but the
branch is only reached when `quantity > 0` fails, i.e. never after the
initial validation).  The change-type validation guarantees that the final
two branches are the ADJUST case, mirroring the Go switch whose default
case is unreachable. -/
def movementNetChange (request : StockMovementRequest) : Int :=
  if request.changeType = InventoryLogChangeTypeIN then request.quantity
  else if request.changeType = InventoryLogChangeTypeOUT then
    -request.quantity
  else if request.quantity > 0 then request.quantity
  else -request.quantity

/-- The `logEntry` value built by `RecordStockMovement`
(`inventory_service.go` lines 198–206): `IsActive: true`, the request's
product, change type, quantity, reason and notes, and
`LoggedAt = util.GetLocalTime()` (the `now` tick here). -/
def movementLogEntry (request : StockMovementRequest) (now : Nat) :
    InventoryLog :=
  ⟨request.productId, request.changeType, request.quantity,
   request.reason, request.notes, now, true⟩

/-- `inventoryService.RecordStockMovement` (`inventory_service.go` lines
143–230), the `Apply` operation of the spec.  Step by step:
1. `Quantity <= 0` → `INVALID_REQUEST` ("Quantity must be greater than 0");
2. change type not IN/OUT/ADJUST → `INVALID_REQUEST`;
3. `GetByProductId` finds no snapshot → `INVALID_REQUEST`
   ("Product inventory not found");
4. the `switch` computes `netChange` and `newStock = previousStock +
   netChange`; in the OUT case, `newStock < 0` without admin override →
   `INVALID_REQUEST` ("Insufficient stock. Available: …, Requested: …");
5. `inventoryLogRepo.Create(logEntry)` then
   `inventoryRepo.UpdateQuantity(productId, newStock)` — each may fail per
   the oracle, surfacing a `DATABASE` error.  An error result carries no
   state: the ambient request transaction holding both writes is rolled
   back (see `RecordStockMovementTx`), so a failed call exposes no partial
   write;
6. on success, the response echoes `previousStock`, `newStock` and
   `netChange`. -/
def RecordStockMovement (oracle : StorageOracle) (st : StoreState)
    (request : StockMovementRequest) (now : Nat) :
    Except XError (StoreState × StockMovementResponse) :=
  if request.quantity ≤ 0 then
    .error ⟨.INVALID_REQUEST, "Quantity must be greater than 0"⟩
  else if ¬ validChangeType request.changeType then
    .error ⟨.INVALID_REQUEST, "Invalid change type. Must be IN, OUT, or ADJUST"⟩
  else
    match getByProductId st request.productId with
    | none => .error ⟨.INVALID_REQUEST, "Product inventory not found"⟩
    | some inventory =>
      -- previousStock = inventory.quantity, netChange = movementNetChange
      -- request, newStock = previousStock + netChange
      if request.changeType = InventoryLogChangeTypeOUT ∧
          inventory.quantity + movementNetChange request < 0 ∧
          request.adminOverride = false then
        .error ⟨.INVALID_REQUEST,
          "Insufficient stock. Available: " ++ toString inventory.quantity ++
          ", Requested: " ++ toString request.quantity⟩
      else if oracle.logCreateFails then
        .error ⟨.DATABASE, "Failed to create inventory log"⟩
      else if oracle.updateQuantityFails then
        .error ⟨.DATABASE, "Failed to update inventory quantity"⟩
      else
        .ok (UpdateQuantity ⟨st.inventories,
               st.logs ++ [movementLogEntry request now]⟩
               request.productId (inventory.quantity + movementNetChange request)
               now,
             ⟨true,
              "Stock " ++ request.changeType ++ " recorded successfully",
              request.productId, inventory.quantity,
              inventory.quantity + movementNetChange request,
              movementNetChange request⟩)

/-- Modelled from the spec: the commit/rollback of the ambient request
transaction.  `transactionManager.WithTransaction` (repository `pkg/db`)
keeps one open transaction per request context, shared by both writes of
`RecordStockMovement`, but the code that commits it on success and rolls
it back on failure (the `GormDAL` plumbing and the request middleware) is
not part of the sources here; per the spec's failure semantics (§4.3), a
failure "must leave both ledger-append and snapshot-update either both
committed or both rolled back".  This wrapper therefore returns the
post-write state on success and the untouched pre-call state on any
error. -/
def RecordStockMovementTx (oracle : StorageOracle) (st : StoreState)
    (request : StockMovementRequest) (now : Nat) :
    StoreState × Except XError StockMovementResponse :=
  match RecordStockMovement oracle st request now with
  | .ok (st2, r) => (st2, .ok r)
  | .error e => (st, .error e)

/-- The message constant `errs.MALFORMED_REQUEST` used by the handlers when
gin's request binding fails. -/
def MALFORMED_REQUEST : String := "MALFORMED_REQUEST"

/-- The request binding of `InventoryHandler.RecordStockMovement`:
`ctx.Bind(&movement)` with the `binding:"required"` tags of
`StockMovementRequest` — `productId`, `changeType`, `quantity` and
`reason` must each be non-zero (non-empty for strings), per gin's
`required` validator. -/
def bindStockMovement (m : StockMovementRequest) : Prop :=
  m.productId ≠ 0 ∧ m.changeType ≠ "" ∧ m.quantity ≠ 0 ∧ m.reason ≠ ""

instance (m : StockMovementRequest) : Decidable (bindStockMovement m) := by
  unfold bindStockMovement
  infer_instance

/-- `InventoryHandler.RecordStockMovement` (inventory handler): a binding
failure yields `INVALID_REQUEST` with `errs.MALFORMED_REQUEST` before the
service is invoked (so the store is untouched); otherwise the service runs
inside the request transaction. -/
def HandlerRecordStockMovement (oracle : StorageOracle) (st : StoreState)
    (m : StockMovementRequest) (now : Nat) :
    StoreState × Except XError StockMovementResponse :=
  if bindStockMovement m then RecordStockMovementTx oracle st m now
  else (st, .error ⟨.INVALID_REQUEST, MALFORMED_REQUEST⟩)

/-- `requestModel.Inventory` (`model/request/inventory.go`): the payload of
the threshold-update endpoint; no field carries a `binding:"required"`
tag. -/
structure InventoryRequest where
  id : Nat
  isActive : Bool
  productId : Nat
  lowStockThreshold : Int
deriving Repr, DecidableEq

/-- `inventoryRepository.Get` (`inventory_repository.go`): gorm `Find` by
primary key, which does not error on a missing row but leaves the
zero-valued struct. -/
def GetInventory (st : StoreState) (id : Nat) : Inventory :=
  (st.inventories.find? (fun i => i.id = id)).getD ⟨0, 0, 0, 0, false, 0, 0⟩

/-- `inventoryService.UpdateThreshold` (`inventory_service.go` lines
93–107): read the current inventory row by id, then update the
`low_stock_threshold` column for its product.  The service performs no
validation of the submitted threshold value. -/
def UpdateThresholdService (st : StoreState) (inventory : InventoryRequest)
    (id : Nat) (now : Nat) : Except XError StoreState :=
  let currentInventory := GetInventory st id
  .ok (UpdateThreshold st currentInventory.productId
        inventory.lowStockThreshold now)

/-- The signed sum of the net changes (`CalculateNetChange`) of all ledger
entries of one product. -/
def ledgerSum (logs : List InventoryLog) (productId : Nat) : Int :=
  ((logs.filter (fun l => l.productId = productId)).map CalculateNetChange).sum

/-- The invariant of spec §3/§8: every stock snapshot's quantity equals the
implicit starting quantity 0 plus the signed sum of the net changes of its
committed ledger entries. -/
def snapshotInvariant (st : StoreState) : Prop :=
  ∀ i ∈ st.inventories, i.quantity = ledgerSum st.logs i.productId

/-- Run a sequence of stock movements against a healthy storage layer:
each successful `RecordStockMovement` commits its state; a rejected one
leaves the state as it was. -/
def runMovements (st : StoreState)
    (reqs : List (StockMovementRequest × Nat)) : StoreState :=
  reqs.foldl (fun s rq =>
    match RecordStockMovement honestOracle s rq.1 rq.2 with
    | .ok (s2, _) => s2
    | .error _ => s) st

/-! ## Helper lemmas -/

/-- Characterization of a successful `RecordStockMovement`: all validations
passed, neither write failed, and the result appends exactly one ledger
entry and rewrites exactly the matching snapshot quantity. -/
theorem recordStockMovement_ok_shape (oracle : StorageOracle)
    (st : StoreState) (request : StockMovementRequest) (now : Nat)
    (st' : StoreState) (r : StockMovementResponse)
    (h : RecordStockMovement oracle st request now = .ok (st', r)) :
    ∃ inventory,
      getByProductId st request.productId = some inventory ∧
      ¬ request.quantity ≤ 0 ∧
      validChangeType request.changeType ∧
      r = ⟨true, "Stock " ++ request.changeType ++ " recorded successfully",
           request.productId, inventory.quantity,
           inventory.quantity + movementNetChange request,
           movementNetChange request⟩ ∧
      st' = UpdateQuantity ⟨st.inventories,
              st.logs ++ [movementLogEntry request now]⟩
              request.productId
              (inventory.quantity + movementNetChange request) now := by
  unfold RecordStockMovement at h
  split at h
  next hq => simp at h
  next hq =>
    split at h
    next hct => simp at h
    next hct =>
      split at h
      next hfind => simp at h
      next inventory hfind =>
        split at h
        next hguard => simp at h
        next hguard =>
          split at h
          next hlog => simp at h
          next hlog =>
            split at h
            next hupd => simp at h
            next hupd =>
              simp only [Except.ok.injEq, Prod.mk.injEq] at h
              exact ⟨inventory, hfind, hq, not_not.mp hct,
                h.2.symm, h.1.symm⟩

/-- Appending one ledger entry adds its net change to the sum of exactly
its own product. -/
theorem ledgerSum_append_one (logs : List InventoryLog) (e : InventoryLog)
    (productId : Nat) :
    ledgerSum (logs ++ [e]) productId =
      ledgerSum logs productId +
        (if e.productId = productId then CalculateNetChange e else 0) := by
  unfold ledgerSum
  rw [List.filter_append, List.map_append, List.sum_append]
  congr 1
  by_cases hpe : e.productId = productId
  · simp [List.filter, hpe]
  · simp [List.filter, hpe]

/-- Once the service's validations have passed, the `netChange` it computes
coincides with `CalculateNetChange` of the ledger entry it writes. -/
theorem calculateNetChange_movementLogEntry (request : StockMovementRequest)
    (now : Nat) (hq : ¬ request.quantity ≤ 0)
    (hct : validChangeType request.changeType) :
    CalculateNetChange (movementLogEntry request now) =
      movementNetChange request := by
  have hq' : 0 < request.quantity := not_le.mp hq
  rcases hct with h | h | h <;>
    simp [CalculateNetChange, movementLogEntry, movementNetChange, h, hq',
      InventoryLogChangeTypeIN, InventoryLogChangeTypeOUT,
      InventoryLogChangeTypeADJUST]

/-- A successful stock movement preserves the snapshot-equals-ledger-sum
invariant. -/
theorem recordStockMovement_preserves_invariant (oracle : StorageOracle)
    (st : StoreState) (request : StockMovementRequest) (now : Nat)
    (st' : StoreState) (r : StockMovementResponse)
    (h : RecordStockMovement oracle st request now = .ok (st', r))
    (hinv : snapshotInvariant st) : snapshotInvariant st' := by
  obtain ⟨inventory, hfind, hq, hct, hr, hst⟩ :=
    recordStockMovement_ok_shape oracle st request now st' r h
  have hmem : inventory ∈ st.inventories :=
    List.mem_of_find?_eq_some hfind
  have hpidinv : inventory.productId = request.productId := by
    have := List.find?_some hfind
    exact of_decide_eq_true this
  subst hst
  intro i hi
  simp only [UpdateQuantity] at hi ⊢
  obtain ⟨j, hj, rfl⟩ := List.mem_map.mp hi
  have hjq := hinv j hj
  rw [ledgerSum_append_one]
  have hcalc := calculateNetChange_movementLogEntry request now hq hct
  by_cases hpid : j.productId = request.productId
  · have hinvq : inventory.quantity = ledgerSum st.logs request.productId := by
      rw [← hpidinv]; exact hinv inventory hmem
    simp only [movementLogEntry] at hcalc ⊢
    simp [hpid, hcalc, hinvq]
  · have hne : ¬ request.productId = j.productId := fun hc => hpid hc.symm
    simp [movementLogEntry, hpid, hne, hjq]

/-- Running any sequence of stock movements preserves the invariant: a
successful movement preserves it, and a rejected movement leaves the state
as it was. -/
theorem runMovements_invariant (reqs : List (StockMovementRequest × Nat))
    (st : StoreState) (hinv : snapshotInvariant st) :
    snapshotInvariant (runMovements st reqs) := by
  induction reqs generalizing st with
  | nil => exact hinv
  | cons rq rest ih =>
    simp only [runMovements, List.foldl_cons]
    cases hstep : RecordStockMovement honestOracle st rq.1 rq.2 with
    | ok p =>
      exact ih _ (recordStockMovement_preserves_invariant honestOracle st
        rq.1 rq.2 p.1 p.2 (by rw [hstep]) hinv)
    | error e => exact ih _ hinv

/-! ## Claims -/

/-- C1: starting from snapshots created with quantity 0 and an empty
ledger, after any sequence of `RecordStockMovement` calls (successful or
rejected — a rejected call leaves the state unchanged), every snapshot's
quantity equals the signed sum of the `CalculateNetChange` values of all
committed ledger entries for its product. -/
theorem snapshot_matches_ledger_C1 (invs : List Inventory)
    (h0 : ∀ i ∈ invs, i.quantity = 0)
    (reqs : List (StockMovementRequest × Nat)) :
    snapshotInvariant (runMovements ⟨invs, []⟩ reqs) := by
  apply runMovements_invariant
  intro i hi
  simpa [ledgerSum] using h0 i hi

/-- Witness for C1: one product created at quantity 0, an IN of 50 then an
OUT of 20; the invariant holds for the resulting state. -/
theorem snapshot_matches_ledger_C1_witness :
    snapshotInvariant (runMovements ⟨[⟨1, 1, 0, 20, true, 1, 0⟩], []⟩
      [(⟨1, "IN", 50, "purchase", "", false⟩, 3),
       (⟨1, "OUT", 20, "sale", "", false⟩, 4)]) :=
  snapshot_matches_ledger_C1 [⟨1, 1, 0, 20, true, 1, 0⟩] (by decide)
    [(⟨1, "IN", 50, "purchase", "", false⟩, 3),
     (⟨1, "OUT", 20, "sale", "", false⟩, 4)]

/-- C2: for every invocation of the movement operation inside its request
transaction, a failure — whether a validation failure before the write
step or an injected storage failure of either write — leaves the whole
store exactly as it was (in particular a ledger entry appended before a
failing snapshot update is never visible), and a success commits both the
ledger append and the snapshot quantity update together. -/
theorem movement_atomicity_C2 (oracle : StorageOracle) (st : StoreState)
    (request : StockMovementRequest) (now : Nat) :
    (∀ e : XError, (RecordStockMovementTx oracle st request now).2 = .error e →
      (RecordStockMovementTx oracle st request now).1 = st) ∧
    (∀ r : StockMovementResponse,
      (RecordStockMovementTx oracle st request now).2 = .ok r →
      (RecordStockMovementTx oracle st request now).1.logs =
        st.logs ++ [movementLogEntry request now] ∧
      (RecordStockMovementTx oracle st request now).1.inventories =
        st.inventories.map (fun i =>
          if i.productId = request.productId then
            { i with quantity := r.newStock, updatedAt := now }
          else i)) := by
  unfold RecordStockMovementTx
  cases hrec : RecordStockMovement oracle st request now with
  | error e => exact ⟨fun _ _ => rfl, fun r hr => by simp at hr⟩
  | ok p =>
    refine ⟨fun e he => by simp at he, fun r hr => ?_⟩
    simp only [Except.ok.injEq] at hr
    subst hr
    obtain ⟨inventory, hfind, hq, hct, hresp, hst⟩ :=
      recordStockMovement_ok_shape oracle st request now p.1 p.2
        (by rw [hrec])
    constructor
    · simp [hst, UpdateQuantity]
    · simp only [hst, UpdateQuantity, hresp]

/-- Witness for C2, exercising the interesting direction: with a storage
layer whose snapshot update fails after a successful ledger append, the
transaction leaves the store untouched — the appended ledger entry is not
visible; and with a healthy storage layer the same request commits both
writes. -/
theorem movement_atomicity_C2_witness :
    ((RecordStockMovementTx ⟨false, true⟩
        ⟨[⟨1, 1, 100, 20, true, 1, 0⟩], []⟩
        ⟨1, "IN", 50, "purchase", "", false⟩ 9).1 =
      ⟨[⟨1, 1, 100, 20, true, 1, 0⟩], []⟩) ∧
    ((RecordStockMovementTx honestOracle
        ⟨[⟨1, 1, 100, 20, true, 1, 0⟩], []⟩
        ⟨1, "IN", 50, "purchase", "", false⟩ 9).1.logs =
      [movementLogEntry ⟨1, "IN", 50, "purchase", "", false⟩ 9]) :=
  ⟨(movement_atomicity_C2 ⟨false, true⟩
      ⟨[⟨1, 1, 100, 20, true, 1, 0⟩], []⟩
      ⟨1, "IN", 50, "purchase", "", false⟩ 9).1
      ⟨.DATABASE, "Failed to update inventory quantity"⟩ (by rfl),
   by
    have h := (movement_atomicity_C2 honestOracle
      ⟨[⟨1, 1, 100, 20, true, 1, 0⟩], []⟩
      ⟨1, "IN", 50, "purchase", "", false⟩ 9).2
      ⟨true, "Stock IN recorded successfully", 1, 100, 150, 50⟩ (by rfl)
    simpa using h.1⟩

/-- C3: an OUT movement whose magnitude exceeds the current snapshot
quantity, without admin override, fails with `INVALID_REQUEST` whose
message carries the previous quantity and the requested magnitude
("Insufficient stock. Available: ⟨prev⟩, Requested: ⟨m⟩"), and the
transaction leaves both the snapshot and the ledger unchanged. -/
theorem insufficient_stock_C3 (oracle : StorageOracle) (st : StoreState)
    (request : StockMovementRequest) (now : Nat) (inv : Inventory)
    (hfind : getByProductId st request.productId = some inv)
    (hct : request.changeType = InventoryLogChangeTypeOUT)
    (hov : request.adminOverride = false)
    (hq : 0 < request.quantity)
    (hgt : inv.quantity < request.quantity) :
    RecordStockMovementTx oracle st request now =
      (st, .error ⟨.INVALID_REQUEST,
        "Insufficient stock. Available: " ++ toString inv.quantity ++
        ", Requested: " ++ toString request.quantity⟩) := by
  have hq' : ¬ request.quantity ≤ 0 := not_le.mpr hq
  have hvalid : validChangeType request.changeType := .inr (.inl hct)
  have hnet : movementNetChange request = -request.quantity := by
    simp [movementNetChange, hct, InventoryLogChangeTypeIN,
      InventoryLogChangeTypeOUT]
  have hneg : inv.quantity + movementNetChange request < 0 := by
    rw [hnet]; omega
  have hrec : RecordStockMovement oracle st request now =
      .error ⟨.INVALID_REQUEST,
        "Insufficient stock. Available: " ++ toString inv.quantity ++
        ", Requested: " ++ toString request.quantity⟩ := by
    unfold RecordStockMovement
    simp only [hfind, if_neg hq', if_neg (not_not.mpr hvalid)]
    rw [if_pos ⟨hct, hneg, hov⟩]
  unfold RecordStockMovementTx
  rw [hrec]

/-- Witness for C3 (spec Scenario B): quantity 10, OUT of 50 without
override fails with the "Available: 10, Requested: 50" message and the
store is unchanged. -/
theorem insufficient_stock_C3_witness :
    RecordStockMovementTx honestOracle ⟨[⟨1, 1, 10, 20, true, 1, 0⟩], []⟩
        ⟨1, "OUT", 50, "sale", "", false⟩ 5 =
      (⟨[⟨1, 1, 10, 20, true, 1, 0⟩], []⟩,
       .error ⟨.INVALID_REQUEST,
         "Insufficient stock. Available: 10, Requested: 50"⟩) :=
  insufficient_stock_C3 honestOracle ⟨[⟨1, 1, 10, 20, true, 1, 0⟩], []⟩
    ⟨1, "OUT", 50, "sale", "", false⟩ 5 ⟨1, 1, 10, 20, true, 1, 0⟩
    rfl rfl rfl (by decide) (by decide)

/-- C5: every successful movement reports `previousStock` equal to the
snapshot quantity read before the movement, `newStock` equal to
`previousStock + changeAmount`, and `changeAmount` the signed change
(`+magnitude` for IN, `-magnitude` for OUT); moreover an OUT with
`adminOverride = true` succeeds even when the resulting stock is
negative. -/
theorem movement_response_C5 :
    (∀ (oracle : StorageOracle) (st : StoreState)
        (request : StockMovementRequest) (now : Nat) (st' : StoreState)
        (r : StockMovementResponse),
      RecordStockMovement oracle st request now = .ok (st', r) →
      (∀ inv : Inventory, getByProductId st request.productId = some inv →
        r.previousStock = inv.quantity) ∧
      r.newStock = r.previousStock + r.changeAmount ∧
      (request.changeType = InventoryLogChangeTypeIN →
        r.changeAmount = request.quantity) ∧
      (request.changeType = InventoryLogChangeTypeOUT →
        r.changeAmount = -request.quantity)) ∧
    (∀ (st : StoreState) (request : StockMovementRequest) (now : Nat)
        (inv : Inventory),
      getByProductId st request.productId = some inv →
      request.changeType = InventoryLogChangeTypeOUT →
      request.adminOverride = true →
      0 < request.quantity →
      ∃ (st' : StoreState) (r : StockMovementResponse),
        RecordStockMovement honestOracle st request now = .ok (st', r) ∧
        r.newStock = inv.quantity - request.quantity ∧
        r.changeAmount = -request.quantity) := by
  constructor
  · intro oracle st request now st' r h
    obtain ⟨inv, hfind, hq, hct, hresp, hst⟩ :=
      recordStockMovement_ok_shape oracle st request now st' r h
    subst hresp
    refine ⟨fun inv2 hfind2 => by rw [hfind] at hfind2; cases hfind2; rfl,
      rfl, fun hin => ?_, fun hout => ?_⟩
    · simp [movementNetChange, hin]
    · simp [movementNetChange, hout, InventoryLogChangeTypeIN,
        InventoryLogChangeTypeOUT]
  · intro st request now inv hfind hct hov hq
    have hq' : ¬ request.quantity ≤ 0 := not_le.mpr hq
    have hvalid : validChangeType request.changeType := .inr (.inl hct)
    have hnet : movementNetChange request = -request.quantity := by
      simp [movementNetChange, hct, InventoryLogChangeTypeIN,
        InventoryLogChangeTypeOUT]
    have hrec : RecordStockMovement honestOracle st request now =
        .ok (UpdateQuantity
               ⟨st.inventories, st.logs ++ [movementLogEntry request now]⟩
               request.productId (inv.quantity + movementNetChange request)
               now,
             ⟨true,
              "Stock " ++ request.changeType ++ " recorded successfully",
              request.productId, inv.quantity,
              inv.quantity + movementNetChange request,
              movementNetChange request⟩) := by
      unfold RecordStockMovement
      simp only [hfind, if_neg hq', if_neg (not_not.mpr hvalid)]
      rw [if_neg (by simp [hov]), if_neg (by simp [honestOracle]),
        if_neg (by simp [honestOracle])]
    refine ⟨_, _, hrec, ?_, ?_⟩
    · show inv.quantity + movementNetChange request =
        inv.quantity - request.quantity
      rw [hnet]; ring
    · show movementNetChange request = -request.quantity
      exact hnet

/-- Witness for C5 (spec Scenarios A and C): an IN of 50 onto quantity 100
reports 100/150/+50; an OUT of 50 with override onto quantity 10 succeeds
with newStock −40 and changeAmount −50. -/
theorem movement_response_C5_witness :
    ((∀ inv : Inventory,
        getByProductId ⟨[⟨1, 1, 100, 20, true, 1, 0⟩], []⟩ 1 = some inv →
        (100 : Int) = inv.quantity) ∧
      (150 : Int) = 100 + 50 ∧
      (("IN" : String) = InventoryLogChangeTypeIN → (50 : Int) = 50) ∧
      (("IN" : String) = InventoryLogChangeTypeOUT → (50 : Int) = -50)) ∧
    (∃ (st' : StoreState) (r : StockMovementResponse),
      RecordStockMovement honestOracle ⟨[⟨1, 1, 10, 20, true, 1, 0⟩], []⟩
          ⟨1, "OUT", 50, "sale", "", true⟩ 6 = .ok (st', r) ∧
      r.newStock = (10 : Int) - 50 ∧
      r.changeAmount = -(50 : Int)) :=
  ⟨movement_response_C5.1 honestOracle ⟨[⟨1, 1, 100, 20, true, 1, 0⟩], []⟩
      ⟨1, "IN", 50, "purchase", "", false⟩ 6 _ _ (by rfl),
   movement_response_C5.2 ⟨[⟨1, 1, 10, 20, true, 1, 0⟩], []⟩
      ⟨1, "OUT", 50, "sale", "", true⟩ 6 ⟨1, 1, 10, 20, true, 1, 0⟩
      rfl rfl rfl (by decide)⟩

/-- C8: a movement with non-positive magnitude, or with a change type
outside {IN, OUT, ADJUST}, is rejected with `INVALID_REQUEST` before any
storage access: the resulting error is one fixed message that does not
depend on the store state, the storage oracle, or the clock, so no
snapshot read and no write can have taken place. -/
theorem early_validation_C8 (request : StockMovementRequest)
    (h : request.quantity ≤ 0 ∨ ¬ validChangeType request.changeType) :
    ∃ msg : String, ∀ (oracle : StorageOracle) (st : StoreState) (now : Nat),
      RecordStockMovement oracle st request now =
        .error ⟨.INVALID_REQUEST, msg⟩ := by
  by_cases hq : request.quantity ≤ 0
  · exact ⟨"Quantity must be greater than 0", fun oracle st now => by
      unfold RecordStockMovement
      rw [if_pos hq]⟩
  · have hct : ¬ validChangeType request.changeType := h.resolve_left hq
    exact ⟨"Invalid change type. Must be IN, OUT, or ADJUST",
      fun oracle st now => by
        unfold RecordStockMovement
        rw [if_neg hq, if_pos hct]⟩

/-- Witness for C8 (spec Scenario E): a movement with magnitude 0 is
rejected with one state-independent `INVALID_REQUEST` error. -/
theorem early_validation_C8_witness :
    ∃ msg : String, ∀ (oracle : StorageOracle) (st : StoreState) (now : Nat),
      RecordStockMovement oracle st ⟨1, "IN", 0, "restock", "", false⟩ now =
        .error ⟨.INVALID_REQUEST, msg⟩ :=
  early_validation_C8 ⟨1, "IN", 0, "restock", "", false⟩ (.inl (by decide))

/-- C10: a successful movement changes nothing of any snapshot row except
the quantity and the last-updated timestamp: the id, product reference,
low-stock threshold, active flag and channel reference of every row are
identical before and after. -/
theorem movement_frame_C10 (oracle : StorageOracle) (st : StoreState)
    (request : StockMovementRequest) (now : Nat) (st' : StoreState)
    (r : StockMovementResponse)
    (h : RecordStockMovement oracle st request now = .ok (st', r)) :
    st'.inventories.map (fun i =>
        (i.id, i.productId, i.lowStockThreshold, i.isActive, i.channelId)) =
      st.inventories.map (fun i =>
        (i.id, i.productId, i.lowStockThreshold, i.isActive, i.channelId)) := by
  obtain ⟨inv, hfind, hq, hct, hresp, hst⟩ :=
    recordStockMovement_ok_shape oracle st request now st' r h
  subst hst
  simp only [UpdateQuantity, List.map_map]
  refine List.map_congr_left (fun i hi => ?_)
  by_cases hpid : i.productId = request.productId <;> simp [hpid]

/-- Witness for C10: an IN movement on a concrete store leaves id,
product, threshold, active flag and channel of the snapshot row as they
were. -/
theorem movement_frame_C10_witness :
    (StoreState.mk
        [⟨1, 1, 150, 20, true, 1, 7⟩]
        [⟨1, "IN", 50, "purchase", "", 7, true⟩]).inventories.map (fun i =>
        (i.id, i.productId, i.lowStockThreshold, i.isActive, i.channelId)) =
      (StoreState.mk [⟨1, 1, 100, 20, true, 1, 0⟩] []).inventories.map (fun i =>
        (i.id, i.productId, i.lowStockThreshold, i.isActive, i.channelId)) :=
  movement_frame_C10 honestOracle ⟨[⟨1, 1, 100, 20, true, 1, 0⟩], []⟩
    ⟨1, "IN", 50, "purchase", "", false⟩ 7
    ⟨[⟨1, 1, 150, 20, true, 1, 7⟩], [⟨1, "IN", 50, "purchase", "", 7, true⟩]⟩
    ⟨true, "Stock IN recorded successfully", 1, 100, 150, 50⟩ (by rfl)

/-- Counterexample to C4: an ADJUST whose raw submitted quantity is
negative (−5, against a snapshot at quantity 10) is not applied as a
negative adjustment — it is rejected by the positive-magnitude validation,
which runs before the ADJUST branch. -/
theorem adjust_sign_C4_counterexample :
    RecordStockMovement honestOracle ⟨[⟨1, 2, 10, 0, true, 1, 0⟩], []⟩
        ⟨2, "ADJUST", -5, "correction", "", false⟩ 3 =
      .error ⟨.INVALID_REQUEST, "Quantity must be greater than 0"⟩ := by rfl

/-- C4 as amended: an ADJUST with positive submitted quantity is applied
as a positive adjustment (newStock = previous + quantity); an ADJUST with
negative (or zero) submitted quantity never reaches the ADJUST branch —
the initial magnitude validation rejects it with `INVALID_REQUEST`
independently of the store, so no negative adjustment is ever applied. -/
theorem adjust_sign_C4_amended :
    (∀ (st : StoreState) (request : StockMovementRequest) (now : Nat)
        (inv : Inventory),
      getByProductId st request.productId = some inv →
      request.changeType = InventoryLogChangeTypeADJUST →
      0 < request.quantity →
      ∃ (st' : StoreState) (r : StockMovementResponse),
        RecordStockMovement honestOracle st request now = .ok (st', r) ∧
        r.newStock = inv.quantity + request.quantity ∧
        r.changeAmount = request.quantity) ∧
    (∀ (oracle : StorageOracle) (st : StoreState)
        (request : StockMovementRequest) (now : Nat),
      request.changeType = InventoryLogChangeTypeADJUST →
      request.quantity ≤ 0 →
      RecordStockMovement oracle st request now =
        .error ⟨.INVALID_REQUEST, "Quantity must be greater than 0"⟩) := by
  constructor
  · intro st request now inv hfind hct hq
    have hq' : ¬ request.quantity ≤ 0 := not_le.mpr hq
    have hvalid : validChangeType request.changeType := .inr (.inr hct)
    have hnet : movementNetChange request = request.quantity := by
      simp [movementNetChange, hct, hq, InventoryLogChangeTypeIN,
        InventoryLogChangeTypeOUT, InventoryLogChangeTypeADJUST]
    have hguard : ¬ (request.changeType = InventoryLogChangeTypeOUT ∧
        inv.quantity + movementNetChange request < 0 ∧
        request.adminOverride = false) := by
      rintro ⟨hout, -, -⟩
      rw [hct] at hout
      exact absurd hout (by decide)
    have hrec : RecordStockMovement honestOracle st request now =
        .ok (UpdateQuantity
               ⟨st.inventories, st.logs ++ [movementLogEntry request now]⟩
               request.productId (inv.quantity + movementNetChange request)
               now,
             ⟨true,
              "Stock " ++ request.changeType ++ " recorded successfully",
              request.productId, inv.quantity,
              inv.quantity + movementNetChange request,
              movementNetChange request⟩) := by
      unfold RecordStockMovement
      simp only [hfind, if_neg hq', if_neg (not_not.mpr hvalid)]
      rw [if_neg hguard, if_neg (by simp [honestOracle]),
        if_neg (by simp [honestOracle])]
    refine ⟨_, _, hrec, ?_, ?_⟩
    · show inv.quantity + movementNetChange request =
        inv.quantity + request.quantity
      rw [hnet]
    · show movementNetChange request = request.quantity
      exact hnet
  · intro oracle st request now hct hq
    unfold RecordStockMovement
    rw [if_pos hq]

/-- Witness for the amended C4: an ADJUST of +7 onto quantity 10 yields
newStock 17, and an ADJUST of −5 is rejected with the magnitude error. -/
theorem adjust_sign_C4_amended_witness :
    (∃ (st' : StoreState) (r : StockMovementResponse),
      RecordStockMovement honestOracle ⟨[⟨1, 2, 10, 0, true, 1, 0⟩], []⟩
          ⟨2, "ADJUST", 7, "correction", "", false⟩ 3 = .ok (st', r) ∧
      r.newStock = (10 : Int) + 7 ∧
      r.changeAmount = (7 : Int)) ∧
    RecordStockMovement honestOracle ⟨[⟨1, 2, 10, 0, true, 1, 0⟩], []⟩
        ⟨2, "ADJUST", -5, "shrinkage", "", false⟩ 3 =
      .error ⟨.INVALID_REQUEST, "Quantity must be greater than 0"⟩ :=
  ⟨adjust_sign_C4_amended.1 ⟨[⟨1, 2, 10, 0, true, 1, 0⟩], []⟩
      ⟨2, "ADJUST", 7, "correction", "", false⟩ 3 ⟨1, 2, 10, 0, true, 1, 0⟩
      rfl rfl (by decide),
   adjust_sign_C4_amended.2 honestOracle ⟨[⟨1, 2, 10, 0, true, 1, 0⟩], []⟩
      ⟨2, "ADJUST", -5, "shrinkage", "", false⟩ 3 rfl (by decide)⟩

/-- Counterexample to C6: with no snapshot for product 1, a valid movement
request fails — but with error code `INVALID_REQUEST`, not `NOT_FOUND`
(the message is "Product inventory not found"). -/
theorem missing_snapshot_C6_counterexample :
    RecordStockMovement honestOracle ⟨[], []⟩
        ⟨1, "IN", 5, "restock", "", false⟩ 2 =
      .error ⟨.INVALID_REQUEST, "Product inventory not found"⟩ ∧
    ErrCode.INVALID_REQUEST ≠ ErrCode.NOT_FOUND := by
  exact ⟨by rfl, by decide⟩

/-- C6 as amended: a movement referencing a product with no stock snapshot
fails with an `INVALID_REQUEST` error (not `NOT_FOUND`) whose message is
"Product inventory not found", and the transaction leaves the store
untouched. -/
theorem missing_snapshot_C6_amended (oracle : StorageOracle)
    (st : StoreState) (request : StockMovementRequest) (now : Nat)
    (hfind : getByProductId st request.productId = none)
    (hq : ¬ request.quantity ≤ 0)
    (hct : validChangeType request.changeType) :
    RecordStockMovementTx oracle st request now =
      (st, .error ⟨.INVALID_REQUEST, "Product inventory not found"⟩) := by
  have hrec : RecordStockMovement oracle st request now =
      .error ⟨.INVALID_REQUEST, "Product inventory not found"⟩ := by
    unfold RecordStockMovement
    simp only [hfind, if_neg hq, if_neg (not_not.mpr hct)]
  unfold RecordStockMovementTx
  rw [hrec]

/-- Witness for the amended C6. -/
theorem missing_snapshot_C6_amended_witness :
    RecordStockMovementTx honestOracle ⟨[], []⟩
        ⟨1, "IN", 5, "restock", "", false⟩ 2 =
      (⟨[], []⟩, .error ⟨.INVALID_REQUEST, "Product inventory not found"⟩) :=
  missing_snapshot_C6_amended honestOracle ⟨[], []⟩
    ⟨1, "IN", 5, "restock", "", false⟩ 2 rfl (by decide) (by decide)

/-- Counterexample to C7: a movement whose reason is empty but which is
otherwise valid does not fail at the service — `RecordStockMovement`
performs no reason check and the call succeeds, writing a ledger entry
with an empty reason. -/
theorem empty_reason_C7_counterexample :
    RecordStockMovement honestOracle ⟨[⟨1, 3, 10, 0, true, 1, 0⟩], []⟩
        ⟨3, "IN", 5, "", "", false⟩ 4 =
      .ok (⟨[⟨1, 3, 15, 0, true, 1, 4⟩], [⟨3, "IN", 5, "", "", 4, true⟩]⟩,
           ⟨true, "Stock IN recorded successfully", 3, 10, 15, 5⟩) := by rfl

/-- C7 as amended: the empty-reason rejection exists, but it lives in the
HTTP handler's request binding (the gin `binding:"required"` tag), which
runs before the service — so it is the first check, not the third: a
movement with empty reason is rejected there with `INVALID_REQUEST`
(malformed request) before any validation of magnitude or change type and
before any write, leaving the store untouched; the service itself never
checks the reason. -/
theorem empty_reason_C7_amended (oracle : StorageOracle) (st : StoreState)
    (m : StockMovementRequest) (now : Nat) (hr : m.reason = "") :
    HandlerRecordStockMovement oracle st m now =
      (st, .error ⟨.INVALID_REQUEST, MALFORMED_REQUEST⟩) := by
  have hbind : ¬ bindStockMovement m := by
    unfold bindStockMovement
    rintro ⟨-, -, -, hne⟩
    exact hne hr
  unfold HandlerRecordStockMovement
  rw [if_neg hbind]

/-- Witness for the amended C7: the handler rejects an otherwise fully
valid movement whose reason is empty, before the service can run. -/
theorem empty_reason_C7_amended_witness :
    HandlerRecordStockMovement honestOracle ⟨[⟨1, 3, 10, 0, true, 1, 0⟩], []⟩
        ⟨3, "IN", 5, "", "", false⟩ 4 =
      (⟨[⟨1, 3, 10, 0, true, 1, 0⟩], []⟩,
       .error ⟨.INVALID_REQUEST, MALFORMED_REQUEST⟩) :=
  empty_reason_C7_amended honestOracle ⟨[⟨1, 3, 10, 0, true, 1, 0⟩], []⟩
    ⟨3, "IN", 5, "", "", false⟩ 4 rfl

/-- Counterexample to C9: a threshold update with a negative new threshold
(−5) does not fail with `INVALID_REQUEST` — it succeeds and stores the
negative threshold. -/
theorem negative_threshold_C9_counterexample :
    UpdateThresholdService ⟨[⟨1, 7, 10, 3, true, 1, 0⟩], []⟩
        ⟨0, true, 0, -5⟩ 1 6 =
      .ok ⟨[⟨1, 7, 10, -5, true, 1, 6⟩], []⟩ := by rfl

/-- C9 as amended: `UpdateThreshold` performs no validation of the new
threshold — every call, with any threshold value including negative ones,
succeeds; and it only ever modifies the low-stock-threshold column (plus
gorm's automatic last-updated timestamp): the quantity and every other
snapshot field, and the ledger, are unchanged. -/
theorem negative_threshold_C9_amended (st : StoreState)
    (inventory : InventoryRequest) (id : Nat) (now : Nat) :
    ∃ st' : StoreState,
      UpdateThresholdService st inventory id now = .ok st' ∧
      st'.logs = st.logs ∧
      st'.inventories.map (fun i =>
          (i.id, i.productId, i.quantity, i.isActive, i.channelId)) =
        st.inventories.map (fun i =>
          (i.id, i.productId, i.quantity, i.isActive, i.channelId)) := by
  refine ⟨_, rfl, rfl, ?_⟩
  simp only [UpdateThreshold, List.map_map]
  refine List.map_congr_left (fun i hi => ?_)
  by_cases hpid : i.productId = (GetInventory st id).productId <;> simp [hpid]
